import Mathlib

/-!
Shallow embedding of the TrendRadar content pipeline core
(`trendradar/content_pipeline.py` and
`trendradar/publisher/content_publisher.py`).

Machine-measured wall-clock values (timestamps, durations) are passed in
as explicit parameters; remote calls and filesystem writes are modelled
by an explicit `Effects` record of oracles, since the spec treats them
as opaque success/failure sources.
-/

set_option autoImplicit false

namespace TrendRadar

/-! ## Platform registry (`ContentPublisher.platform_configs`) -/

/-- One platform descriptor, the value type of `self.platform_configs`. -/
structure PlatformConfig where
  name : String
  api_base : Option String := none
  required_params : List String := []
  publish_method : String
  rate_limit : Option Nat := none
  enabled : Bool := false
  deriving Repr, DecidableEq

/-- The registry is an insertion-ordered dict, modelled as an association
list with unique keys. -/
abbrev Registry := List (String × PlatformConfig)

/-- `self.platform_configs.get(platform)`: first (unique) binding of the key. -/
def lookupConfig (configs : Registry) (platform : String) : Option PlatformConfig :=
  match configs with
  | [] => none
  | (q, c) :: rest => if q == platform then some c else lookupConfig rest platform

/-- The built-in seed table from `ContentPublisher.__init__`. -/
def defaultPlatformConfigs : Registry :=
  [ ("wechat",
      { name := "微信公众号", api_base := some "https://api.weixin.qq.com",
        required_params := ["access_token", "article_data"],
        publish_method := "api", rate_limit := some 10, enabled := false }),
    ("zhihu",
      { name := "知乎", api_base := some "https://www.zhihu.com/api",
        required_params := ["title", "content", "topics"],
        publish_method := "api", rate_limit := some 5, enabled := false }),
    ("xiaohongshu",
      { name := "小红书", api_base := some "https://edith.xiaohongshu.com/api",
        required_params := ["title", "content", "images"],
        publish_method := "webhook", rate_limit := some 3, enabled := false }),
    ("toutiao",
      { name := "头条号", api_base := some "https://mp.toutiao.com/api",
        required_params := ["title", "content", "category"],
        publish_method := "api", rate_limit := some 10, enabled := false }),
    ("feishu",
      { name := "飞书", api_base := some "https://open.feishu.cn/open-apis",
        required_params := ["title", "content", "receive_id"],
        publish_method := "webhook", rate_limit := some 100, enabled := true }),
    ("file",
      { name := "本地文件", api_base := none,
        required_params := ["filepath"],
        publish_method := "local", rate_limit := none, enabled := true }) ]

/-! ## Publish history (`publish_history`, `_save_history`, `_add_to_history`,
`_check_rate_limit`) -/

/-- A per-platform success/failure pair, the value type of the
`platform_results` mapping. -/
structure PlatformTally where
  success : Nat := 0
  failure : Nat := 0
  deriving Repr, DecidableEq

/-- One entry of `publish_history`. Python entries are schemaless dicts;
the keys actually written by `_add_to_history` are the non-optional
fields below, while `platform` and `success` are the keys that
`_check_rate_limit` reads with `.get` (absent key = `none`). -/
structure HistoryEntry where
  timestamp : String
  platform : Option String := none
  success : Option Bool := none
  total_contents : Nat := 0
  success_count : Nat := 0
  failure_count : Nat := 0
  platform_results : List (String × PlatformTally) := []
  duration_seconds : Nat := 0
  deriving Repr, DecidableEq

/-- Python's `str.startswith(pre)`: `pre` is a prefix of `s`
(character-list formulation, so that it evaluates by reduction). -/
def strStartsWith (s pre : String) : Bool := pre.data.isPrefixOf s.data

/-- `_save_history`: keep only the most recent 100 entries
(`publish_history[-100:]`), then persist. Returns the persisted list. -/
def saveHistory (history : List HistoryEntry) : List HistoryEntry :=
  if history.length > 100 then history.drop (history.length - 100) else history

/-- `_check_rate_limit(platform)`: `True` when publishing is still allowed.
`today` is `datetime.now().strftime("%Y-%m-%d")`. -/
def checkRateLimit (configs : Registry) (history : List HistoryEntry)
    (today : String) (platform : String) : Bool :=
  let rate_limit : Option Nat :=
    match lookupConfig configs platform with
    | none => none
    | some cfg => cfg.rate_limit
  match rate_limit with
  | none => true
  | some rl =>
      let today_publishes := history.filter fun h =>
        h.platform == some platform && strStartsWith h.timestamp today &&
          h.success.getD false
      today_publishes.length < rl

/-! ## Content and result records -/

/-- A `FormattedContent` dict as consumed by the publisher: top-level
`platform` / `platform_name` plus the nested `content` fields. -/
structure FormattedContent where
  platform : String := ""
  platform_name : String := ""
  formatted_title : String := ""
  formatted_content : String := ""
  summary : String := ""
  tags : List String := []
  word_count : Nat := 0
  deriving Repr, DecidableEq

/-- The per-(content, platform) result dict returned by `_publish_single`
and the leaf publish methods. `now` timestamps are threaded in by the
caller. -/
structure PublishResult where
  success : Bool
  platform : String
  error : Option String := none
  method : Option String := none
  message : Option String := none
  deriving Repr, DecidableEq

/-- Oracles for the two genuinely effectful leaves: the local filesystem
write in `_publish_to_file` (`none` = write succeeded, `some e` = the
caught exception text) and the remote `_publish_wechat_draft` call. -/
structure Effects where
  fileWriteError : FormattedContent → String → Option String
  wechatDraft : FormattedContent → PublishResult

/-- `_publish_to_file`: always succeeds unless the filesystem write fails. -/
def publishToFile (eff : Effects) (content : FormattedContent)
    (platform : String) : PublishResult :=
  match eff.fileWriteError content platform with
  | none =>
      { success := true, platform := platform, method := some "file",
        message := some "内容已保存到文件" }
  | some e =>
      { success := false, platform := platform, error := some e }

/-- `_publish_via_webhook`: only `feishu` is implemented and returns a
simulated success; every other platform fails. -/
def publishViaWebhook (content : FormattedContent) (platform : String) :
    PublishResult :=
  if platform == "feishu" then
    { success := true, platform := platform, method := some "webhook",
      message := some "飞书Webhook发布成功（模拟）" }
  else
    { success := false, platform := platform,
      error := some ("Webhook配置未实现: " ++ platform) }

/-- `_publish_via_api`: `wechat` goes through the remote draft call;
every other platform returns a simulated success. -/
def publishViaApi (eff : Effects) (content : FormattedContent)
    (platform : String) : PublishResult :=
  if platform == "wechat" then eff.wechatDraft content
  else
    { success := true, platform := platform, method := some "api",
      message := some (platform ++ " API发布成功（模拟）") }

/-- The `enabled` check of `_publish_single`:
`platform_config.get("enabled", False)` (unknown platform gives the
empty dict, hence `False`). -/
def platformEnabled (configs : Registry) (platform : String) : Bool :=
  match lookupConfig configs platform with
  | none => false
  | some cfg => cfg.enabled

/-- `_publish_single(content_idx, formatted_content, platform)`:
disabled check, rate-limit check, then dispatch by `publish_method`
(`platform_config.get("publish_method", "file")`). -/
def publishSingle (eff : Effects) (configs : Registry)
    (history : List HistoryEntry) (today : String)
    (content : FormattedContent) (platform : String) : PublishResult :=
  if !platformEnabled configs platform then
    { success := false, platform := platform, error := some "平台未启用" }
  else if !checkRateLimit configs history today platform then
    { success := false, platform := platform, error := some "达到频率限制" }
  else
    let method :=
      match lookupConfig configs platform with
      | none => "file"
      | some cfg => cfg.publish_method
    if method == "file" then publishToFile eff content platform
    else if method == "webhook" then publishViaWebhook content platform
    else if method == "api" then publishViaApi eff content platform
    else
      { success := false, platform := platform,
        error := some ("不支持的发布方法: " ++ method) }

/-! ## Batch dispatch (`publish_to_platforms`) -/

/-- Python `dict` write `results["platform_results"][platform] += 1`
with the `if platform not in ...: init` guard before it. -/
def bumpTally (t : List (String × PlatformTally)) (p : String) (ok : Bool) :
    List (String × PlatformTally) :=
  match t with
  | [] => [(p, if ok then { success := 1 } else { failure := 1 })]
  | (q, s) :: rest =>
      if q == p then
        (q, if ok then { s with success := s.success + 1 }
            else { s with failure := s.failure + 1 }) :: rest
      else (q, s) :: bumpTally rest p ok

/-- Lookup of a platform tally (`results["platform_results"].get(p)`). -/
def lookupTally (t : List (String × PlatformTally)) (p : String) :
    Option PlatformTally :=
  match t with
  | [] => none
  | (q, s) :: rest => if q == p then some s else lookupTally rest p

/-- Dict write `content_result["platform_results"][platform] = result`. -/
def setResult (acc : List (String × PublishResult)) (p : String)
    (r : PublishResult) : List (String × PublishResult) :=
  match acc with
  | [] => [(p, r)]
  | (q, v) :: rest =>
      if q == p then (q, r) :: rest else (q, v) :: setResult rest p r

/-- One `details` record: per-content entry built inside the outer loop. -/
structure ContentDetail where
  content_index : Nat
  content_title : String
  platform_results : List (String × PublishResult)
  deriving Repr, DecidableEq

/-- The mutable counters of `results` that the platform loop updates. -/
structure BatchTotals where
  success_count : Nat := 0
  failure_count : Nat := 0
  platform_results : List (String × PlatformTally) := []
  deriving Repr, DecidableEq

/-- The inner `for platform in platforms` loop of `publish_to_platforms`
for one content: updates totals and the content record. -/
def publishLoop (eff : Effects) (configs : Registry)
    (history : List HistoryEntry) (today : String)
    (content : FormattedContent) :
    List String → BatchTotals → List (String × PublishResult) →
      BatchTotals × List (String × PublishResult)
  | [], totals, acc => (totals, acc)
  | p :: rest, totals, acc =>
      let r := publishSingle eff configs history today content p
      let totals :=
        { success_count :=
            if r.success then totals.success_count + 1 else totals.success_count,
          failure_count :=
            if r.success then totals.failure_count else totals.failure_count + 1,
          platform_results := bumpTally totals.platform_results p r.success }
      publishLoop eff configs history today content rest totals (setResult acc p r)

/-- The outer `for content_idx, formatted_content in enumerate(...)` loop. -/
def contentsLoop (eff : Effects) (configs : Registry)
    (history : List HistoryEntry) (today : String) (platforms : List String) :
    List FormattedContent → Nat → BatchTotals → List ContentDetail →
      BatchTotals × List ContentDetail
  | [], _, totals, details => (totals, details)
  | c :: rest, idx, totals, details =>
      let step := publishLoop eff configs history today c platforms totals []
      let detail : ContentDetail :=
        { content_index := idx, content_title := c.formatted_title,
          platform_results := step.2 }
      contentsLoop eff configs history today platforms rest (idx + 1) step.1
        (details ++ [detail])

/-- The batch report returned by `publish_to_platforms`. -/
structure BatchResults where
  total_contents : Nat
  total_platforms : Nat
  success_count : Nat
  failure_count : Nat
  platform_results : List (String × PlatformTally)
  details : List ContentDetail
  deriving Repr, DecidableEq

/-- The platform-defaulting step of `publish_to_platforms`: `None` means
all enabled platforms in registry order, an explicit list is kept as is. -/
def resolvePlatforms (configs : Registry) :
    Option (List String) → List String
  | none => (configs.filter fun pc => pc.2.enabled).map Prod.fst
  | some ps => ps

/-- `_add_to_history`'s entry construction: note that it writes only the
aggregate keys, never a `platform` or `success` key. -/
def mkHistoryEntry (now : String) (dur : Nat) (r : BatchResults) : HistoryEntry :=
  { timestamp := now,
    total_contents := r.total_contents,
    success_count := r.success_count,
    failure_count := r.failure_count,
    platform_results := r.platform_results,
    duration_seconds := dur }

/-- `_add_to_history`: append one derived entry, then `_save_history`. -/
def addToHistory (history : List HistoryEntry) (e : HistoryEntry) :
    List HistoryEntry :=
  saveHistory (history ++ [e])

/-- `publish_to_platforms(formatted_contents, platforms)`. `today` / `now`
are the wall-clock strings, `dur` the measured duration. Returns the
batch report and the post-append history. -/
def publishToPlatforms (eff : Effects) (configs : Registry)
    (history : List HistoryEntry) (today now : String) (dur : Nat)
    (contents : List FormattedContent) (platformsArg : Option (List String)) :
    BatchResults × List HistoryEntry :=
  let platforms := resolvePlatforms configs platformsArg
  let run := contentsLoop eff configs history today platforms contents 0 {} []
  let results : BatchResults :=
    { total_contents := contents.length,
      total_platforms := platforms.length,
      success_count := run.1.success_count,
      failure_count := run.1.failure_count,
      platform_results := run.1.platform_results,
      details := run.2 }
  (results, addToHistory history (mkHistoryEntry now dur results))

/-! ## Pipeline-level dispatch (`ContentPipeline._publish_contents`) -/

/-- The running aggregate built by `_publish_contents`. -/
structure Aggregate where
  total_contents : Nat := 0
  total_platforms : Nat := 0
  success_count : Nat := 0
  failure_count : Nat := 0
  platform_results : List (String × PlatformTally) := []
  details : List ContentDetail := []
  deriving Repr, DecidableEq

/-- Fold one per-platform tally into the aggregate map (the
`if p_name not in ...: init` plus `+=` block). -/
def addTally (t : List (String × PlatformTally)) (p : String)
    (st : PlatformTally) : List (String × PlatformTally) :=
  match t with
  | [] => [(p, { success := st.success, failure := st.failure })]
  | (q, s) :: rest =>
      if q == p then
        (q, { success := s.success + st.success,
              failure := s.failure + st.failure }) :: rest
      else (q, s) :: addTally rest p st

/-- The grouping step of `_publish_contents`: for each configured publish
platform, the contents whose own `platform` field matches; groups with no
matching content are skipped (`continue`). -/
def dispatchGroups (publish_platforms : List String)
    (contents : List FormattedContent) : List (String × List FormattedContent) :=
  publish_platforms.filterMap fun p =>
    let platform_contents := contents.filter fun c => c.platform == p
    if platform_contents.isEmpty then none else some (p, platform_contents)

/-- `_publish_contents(formatted_contents, results)`: one
`publish_to_platforms` call per non-empty platform group, aggregated.
Returns the aggregate and the final publish history. -/
def publishContents (eff : Effects) (configs : Registry)
    (history : List HistoryEntry) (today now : String) (dur : Nat)
    (publisher_enabled : Bool) (publish_platforms : List String)
    (formatted_contents : List FormattedContent) :
    Aggregate × List HistoryEntry :=
  if !publisher_enabled then ({}, history)
  else
    (dispatchGroups publish_platforms formatted_contents).foldl
      (fun st group =>
        let pub :=
          publishToPlatforms eff configs st.2 today now dur group.2
            (some [group.1])
        ({ total_contents := st.1.total_contents + pub.1.total_contents,
           total_platforms := st.1.total_platforms,
           success_count := st.1.success_count + pub.1.success_count,
           failure_count := st.1.failure_count + pub.1.failure_count,
           platform_results :=
             pub.1.platform_results.foldl (fun a pr => addTally a pr.1 pr.2)
               st.1.platform_results,
           details := st.1.details ++ pub.1.details }, pub.2))
      ({ total_platforms := publish_platforms.length }, history)

/-! ## Pipeline stages (`ContentPipeline.run_pipeline` and helpers) -/

/-- An inspiration record (only the fields the orchestrator reads). -/
structure Inspiration where
  title : String := ""
  summary : String := ""
  deriving Repr, DecidableEq

/-- An outline as seen by the orchestrator. -/
structure Outline where
  title : String := ""
  deriving Repr, DecidableEq

/-- An article as seen by the orchestrator. -/
structure Article where
  title : String := ""
  deriving Repr, DecidableEq

/-- Outcome of one generate-and-save step inside a stage loop: the
generator-and-saver pair succeeded, the save call returned `False`, or an
exception was raised (caught by the per-item `except`). -/
inductive GenOutcome (α : Type) where
  | ok (value : α)
  | saveFail (value : α)
  | raised (msg : String)
  deriving Repr, DecidableEq

/-- Per-stage counters (`results["module_results"][stage]`). -/
structure StageCounters where
  processed : Nat := 0
  success : Nat := 0
  failed : Nat := 0
  deriving Repr, DecidableEq

/-- The content-transform collaborators, abstracted as per-item oracles
(the spec treats them as pure, deterministic transforms). -/
structure StageOracles where
  outlineOf : Inspiration → GenOutcome Outline
  articleOf : Outline → GenOutcome Article
  formatOf : Article → String → GenOutcome FormattedContent

/-- One iteration of the `_generate_outlines` loop. -/
def outlineStep (orc : StageOracles)
    (st : List Outline × StageCounters × List String) (insp : Inspiration) :
    List Outline × StageCounters × List String :=
  match orc.outlineOf insp with
  | GenOutcome.ok o =>
      (st.1 ++ [o],
        { processed := st.2.1.processed + 1, success := st.2.1.success + 1,
          failed := st.2.1.failed }, st.2.2)
  | GenOutcome.saveFail _ =>
      (st.1,
        { processed := st.2.1.processed + 1, success := st.2.1.success,
          failed := st.2.1.failed + 1 },
        st.2.2 ++ ["大纲保存失败: " ++ insp.title])
  | GenOutcome.raised e =>
      (st.1,
        { processed := st.2.1.processed + 1, success := st.2.1.success,
          failed := st.2.1.failed + 1 },
        st.2.2 ++ ["大纲生成异常: " ++ e])

/-- `_generate_outlines`: fail-soft per item; a disabled module returns
an empty list without touching counters. Returns the surviving outlines,
the stage counters and the appended error strings. -/
def generateOutlines (enabled : Bool) (orc : StageOracles)
    (inspirations : List Inspiration) :
    List Outline × StageCounters × List String :=
  if !enabled then ([], {}, [])
  else inspirations.foldl (outlineStep orc) ([], {}, [])

/-- One iteration of the `_write_contents` loop. -/
def writerStep (orc : StageOracles)
    (st : List Article × StageCounters × List String) (outline : Outline) :
    List Article × StageCounters × List String :=
  match orc.articleOf outline with
  | GenOutcome.ok a =>
      (st.1 ++ [a],
        { processed := st.2.1.processed + 1, success := st.2.1.success + 1,
          failed := st.2.1.failed }, st.2.2)
  | GenOutcome.saveFail _ =>
      (st.1,
        { processed := st.2.1.processed + 1, success := st.2.1.success,
          failed := st.2.1.failed + 1 },
        st.2.2 ++ ["文章保存失败: " ++ outline.title])
  | GenOutcome.raised e =>
      (st.1,
        { processed := st.2.1.processed + 1, success := st.2.1.success,
          failed := st.2.1.failed + 1 },
        st.2.2 ++ ["内容创作异常: " ++ e])

/-- `_write_contents`. -/
def writeContents (enabled : Bool) (orc : StageOracles)
    (outlines : List Outline) :
    List Article × StageCounters × List String :=
  if !enabled then ([], {}, [])
  else outlines.foldl (writerStep orc) ([], {}, [])

/-- One iteration of the inner platform loop of `_format_contents`. -/
def formatStep (orc : StageOracles) (article : Article)
    (st : List FormattedContent × StageCounters × List String)
    (platform : String) :
    List FormattedContent × StageCounters × List String :=
  match orc.formatOf article platform with
  | GenOutcome.ok f =>
      (st.1 ++ [f],
        { processed := st.2.1.processed + 1, success := st.2.1.success + 1,
          failed := st.2.1.failed }, st.2.2)
  | GenOutcome.saveFail _ =>
      (st.1,
        { processed := st.2.1.processed + 1, success := st.2.1.success,
          failed := st.2.1.failed + 1 },
        st.2.2 ++ ["格式化保存失败: " ++ platform])
  | GenOutcome.raised e =>
      (st.1,
        { processed := st.2.1.processed + 1, success := st.2.1.success,
          failed := st.2.1.failed + 1 },
        st.2.2 ++ ["排版优化异常: " ++ e])

/-- `_format_contents`: the expansion point, one attempt per
(article, configured platform) pair. -/
def formatContents (enabled : Bool) (orc : StageOracles)
    (platforms : List String) (articles : List Article) :
    List FormattedContent × StageCounters × List String :=
  if !enabled then ([], {}, [])
  else
    articles.foldl
      (fun st article => platforms.foldl (formatStep orc article) st)
      ([], {}, [])

/-- The typed projection of the pipeline configuration keys that
`run_pipeline` and its stages read (defaults from `_load_config`). -/
structure PipelineConfig where
  max_articles_per_run : Nat := 3
  default_writing_style : String := "professional"
  default_format_platforms : List String :=
    ["wechat", "zhihu", "xiaohongshu", "toutiao"]
  auto_publish : Bool := true
  publish_platforms : List String := ["file"]
  outline_enabled : Bool := true
  writer_enabled : Bool := true
  formatter_enabled : Bool := true
  publisher_enabled : Bool := true
  deriving Repr, DecidableEq

/-- The parts of the run record (`results`) that the orchestrator logic
reads or writes (timestamps and file paths are process-local strings and
are omitted). -/
structure RunResults where
  total_inspirations : Nat := 0
  total_articles : Nat := 0
  total_published : Nat := 0
  outline : StageCounters := {}
  writer : StageCounters := {}
  formatter : StageCounters := {}
  publisher : StageCounters := {}
  errors : List String := []
  deriving Repr, DecidableEq

/-- The batch-size cap of `run_pipeline`
(`if len(inspirations) > max_articles: inspirations[:max_articles]`). -/
def truncateBatch (max_articles : Nat) (inspirations : List Inspiration) :
    List Inspiration :=
  if inspirations.length > max_articles then inspirations.take max_articles
  else inspirations

/-- Stages 2-5 of `run_pipeline`, on the already-truncated batch.
`total_inspirations` is filled in by the caller (it is recorded before
truncation). Returns the run record and the final publish history. -/
def runPipelineStages (orc : StageOracles) (eff : Effects)
    (configs : Registry) (history : List HistoryEntry) (today now : String)
    (dur : Nat) (cfg : PipelineConfig) (inspirations : List Inspiration) :
    RunResults × List HistoryEntry :=
  let og := generateOutlines cfg.outline_enabled orc inspirations
  if og.1.isEmpty then
    ({ outline := og.2.1, errors := og.2.2 ++ ["大纲生成失败"] }, history)
  else
    let wg := writeContents cfg.writer_enabled orc og.1
    if wg.1.isEmpty then
      ({ outline := og.2.1, writer := wg.2.1,
         errors := og.2.2 ++ wg.2.2 ++ ["内容创作失败"] }, history)
    else
      let fg :=
        formatContents cfg.formatter_enabled orc cfg.default_format_platforms
          wg.1
      if fg.1.isEmpty then
        ({ total_articles := wg.1.length, outline := og.2.1, writer := wg.2.1,
           formatter := fg.2.1,
           errors := og.2.2 ++ wg.2.2 ++ fg.2.2 ++ ["排版优化失败"] }, history)
      else if cfg.auto_publish then
        let pg :=
          publishContents eff configs history today now dur
            cfg.publisher_enabled cfg.publish_platforms fg.1
        ({ total_articles := wg.1.length,
           total_published := pg.1.success_count,
           outline := og.2.1, writer := wg.2.1, formatter := fg.2.1,
           publisher :=
             { processed := pg.1.total_contents,
               success := pg.1.success_count,
               failed := pg.1.failure_count },
           errors := og.2.2 ++ wg.2.2 ++ fg.2.2 }, pg.2)
      else
        ({ total_articles := wg.1.length, outline := og.2.1, writer := wg.2.1,
           formatter := fg.2.1, errors := og.2.2 ++ wg.2.2 ++ fg.2.2 },
          history)

/-- `run_pipeline(inspiration_data)` with the inspiration batch already
resolved (`_get_inspirations` returns a supplied batch unchanged). -/
def runPipeline (orc : StageOracles) (eff : Effects) (configs : Registry)
    (history : List HistoryEntry) (today now : String) (dur : Nat)
    (cfg : PipelineConfig) (inspiration_data : List Inspiration) :
    RunResults × List HistoryEntry :=
  if inspiration_data.isEmpty then
    ({ errors := ["未获取到灵感数据"] }, history)
  else
    let truncated := truncateBatch cfg.max_articles_per_run inspiration_data
    let run :=
      runPipelineStages orc eff configs history today now dur cfg truncated
    ({ run.1 with total_inspirations := inspiration_data.length }, run.2)

/-! ## Configuration loading (`ContentPipeline._load_config`,
`ContentPublisher._load_config`) -/

/-- A JSON-like configuration value, enough to express the recognized
keys and arbitrary user overrides. -/
inductive ConfigValue where
  | str (s : String)
  | nat (n : Nat)
  | bool (b : Bool)
  | strList (xs : List String)
  | dict (fields : List (String × ConfigValue))

/-- Dict read (`d1.get(k)`) on a field list. -/
def getField (d : List (String × ConfigValue)) (k : String) :
    Option ConfigValue :=
  match d with
  | [] => none
  | (q, v) :: rest => if q == k then some v else getField rest k

/-- Dict write (`d1[k] = v`): overwrite in place, append when new. -/
def setField (d : List (String × ConfigValue)) (k : String)
    (v : ConfigValue) : List (String × ConfigValue) :=
  match d with
  | [] => [(k, v)]
  | (q, w) :: rest =>
      if q == k then (q, v) :: rest else (q, w) :: setField rest k v

mutual

/-- The inner decision of `merge_dict`: recurse when both sides are
dicts, otherwise the override value wins. -/
def mergeValue : ConfigValue → ConfigValue → ConfigValue
  | ConfigValue.dict a, ConfigValue.dict b => ConfigValue.dict (mergeFields a b)
  | _, v => v

/-- `merge_dict(d1, d2)` from `ContentPipeline._load_config`. -/
def mergeFields (d1 : List (String × ConfigValue)) :
    List (String × ConfigValue) → List (String × ConfigValue)
  | [] => d1
  | (k, v) :: rest =>
      let d1 :=
        match getField d1 k with
        | some v1 => setField d1 k (mergeValue v1 v)
        | none => setField d1 k v
      mergeFields d1 rest

end

/-- The built-in `default_config` of `ContentPipeline._load_config`. -/
def pipelineDefaultConfig : List (String × ConfigValue) :=
  [ ("pipeline", ConfigValue.dict
      [ ("enabled", ConfigValue.bool true),
        ("max_articles_per_run", ConfigValue.nat 3),
        ("default_writing_style", ConfigValue.str "professional"),
        ("default_format_platforms",
          ConfigValue.strList ["wechat", "zhihu", "xiaohongshu", "toutiao"]),
        ("auto_publish", ConfigValue.bool true),
        ("publish_platforms", ConfigValue.strList ["file"]) ]),
    ("modules", ConfigValue.dict
      [ ("outline", ConfigValue.dict
          [ ("enabled", ConfigValue.bool true),
            ("default_style", ConfigValue.str "tech_analysis") ]),
        ("writer", ConfigValue.dict [("enabled", ConfigValue.bool true)]),
        ("formatter", ConfigValue.dict [("enabled", ConfigValue.bool true)]),
        ("publisher", ConfigValue.dict [("enabled", ConfigValue.bool true)]) ]) ]

/-- `ContentPipeline._load_config`. The argument models the file system
and parser: `none` = no config path / file missing, `some (error e)` =
the file exists but loading raised, `some (ok user)` = parsed user
config. Total by construction: loading never aborts. -/
def loadPipelineConfig :
    Option (Except String (List (String × ConfigValue))) →
      List (String × ConfigValue)
  | none => pipelineDefaultConfig
  | some (Except.error _) => pipelineDefaultConfig
  | some (Except.ok user) => mergeFields pipelineDefaultConfig user

/-- A partial platform descriptor from a config file
(`platform_config.update(...)` source). -/
structure PlatformOverride where
  name : Option String := none
  api_base : Option (Option String) := none
  required_params : Option (List String) := none
  publish_method : Option String := none
  rate_limit : Option (Option Nat) := none
  enabled : Option Bool := none
  deriving Repr, DecidableEq

/-- `self.platform_configs[platform].update(platform_config)`. -/
def applyOverride (cfg : PlatformConfig) (o : PlatformOverride) :
    PlatformConfig :=
  { name := o.name.getD cfg.name,
    api_base := o.api_base.getD cfg.api_base,
    required_params := o.required_params.getD cfg.required_params,
    publish_method := o.publish_method.getD cfg.publish_method,
    rate_limit := o.rate_limit.getD cfg.rate_limit,
    enabled := o.enabled.getD cfg.enabled }

/-- The two accepted override shapes of `ContentPublisher._load_config`:
a top-level `platforms` map, or `modules.publisher.platforms`. -/
structure PublisherUserConfig where
  platforms : List (String × PlatformOverride) := []
  modules_publisher_platforms : List (String × PlatformOverride) := []
  deriving Repr

/-- The update loop: only platforms already present in the registry are
touched; unknown names are ignored. -/
def updatePlatforms (configs : Registry)
    (overrides : List (String × PlatformOverride)) : Registry :=
  overrides.foldl
    (fun acc pr =>
      if (lookupConfig acc pr.1).isSome then
        acc.map fun e => if e.1 == pr.1 then (e.1, applyOverride e.2 pr.2) else e
      else acc)
    configs

/-- `ContentPublisher._load_config`: missing file or load failure leaves
the registry unchanged; otherwise the first non-empty override shape is
applied. -/
def publisherLoadConfig (configs : Registry) :
    Option (Except String PublisherUserConfig) → Registry
  | none => configs
  | some (Except.error _) => configs
  | some (Except.ok user) =>
      let source :=
        if user.platforms.isEmpty then user.modules_publisher_platforms
        else user.platforms
      updatePlatforms configs source

/-! ## Observers and concrete scenarios -/

/-- Observer: combined success+failure count recorded for a platform in
a tally map (0 when the platform has no entry). -/
def tallyTotal (t : List (String × PlatformTally)) (p : String) : Nat :=
  match lookupTally t p with
  | none => 0
  | some s => s.success + s.failure

/-- Effects where every filesystem write succeeds and the remote wechat
draft call fails for lack of credentials (the default-config behaviour). -/
def noFailureEffects : Effects :=
  { fileWriteError := fun _ _ => none,
    wechatDraft := fun _ =>
      { success := false, platform := "wechat",
        error := some "缺少 wechat app_id 或 app_secret" } }

/-- A registry whose `feishu` descriptor has `rate_limit = 2`
(reachable through a config override on the seed table). -/
def rateLimitScenarioConfigs : Registry :=
  [ ("feishu",
      { name := "飞书", api_base := some "https://open.feishu.cn/open-apis",
        required_params := ["title", "content", "receive_id"],
        publish_method := "webhook", rate_limit := some 2, enabled := true }) ]

/-- One feishu-tagged content. -/
def c1Content : FormattedContent :=
  { platform := "feishu", platform_name := "飞书", formatted_title := "示例" }

/-- Three consecutive same-day dispatches of one feishu content, each
starting from the history the previous dispatch persisted. -/
def c1Run1 : BatchResults × List HistoryEntry :=
  publishToPlatforms noFailureEffects rateLimitScenarioConfigs []
    "2026-10-12" "2026-10-12T08:00:00" 0 [c1Content] (some ["feishu"])

def c1Run2 : BatchResults × List HistoryEntry :=
  publishToPlatforms noFailureEffects rateLimitScenarioConfigs c1Run1.2
    "2026-10-12" "2026-10-12T09:00:00" 0 [c1Content] (some ["feishu"])

def c1Run3 : BatchResults × List HistoryEntry :=
  publishToPlatforms noFailureEffects rateLimitScenarioConfigs c1Run2.2
    "2026-10-12" "2026-10-12T10:00:00" 0 [c1Content] (some ["feishu"])

/-- The shape of the entries `_add_to_history` appends for one successful
feishu publish: aggregate keys only, no `platform` / `success` keys. -/
def c1SeededEntry (t : String) : HistoryEntry :=
  { timestamp := t, total_contents := 1, success_count := 1,
    failure_count := 0, platform_results := [("feishu", { success := 1 })],
    duration_seconds := 0 }

/-- One dispatch of one content to the disabled `wechat` platform of the
default registry. -/
def c7Run : BatchResults × List HistoryEntry :=
  publishToPlatforms noFailureEffects defaultPlatformConfigs []
    "2026-10-12" "2026-10-12T08:00:00" 0
    [{ platform := "wechat", formatted_title := "示例" }] (some ["wechat"])

/-- One dispatch of one file-tagged content with the platform list
containing the same platform twice. -/
def c9DupRun : BatchResults × List HistoryEntry :=
  publishToPlatforms noFailureEffects defaultPlatformConfigs []
    "2026-10-12" "2026-10-12T08:00:00" 0
    [{ platform := "file", formatted_title := "示例" }] (some ["file", "file"])

/-- One dispatch of two contents (file-tagged and feishu-tagged) to the
duplicate-free platform list `["file", "feishu"]`. -/
def c9NodupRun : BatchResults × List HistoryEntry :=
  publishToPlatforms noFailureEffects defaultPlatformConfigs []
    "2026-10-12" "2026-10-12T08:00:00" 0
    [{ platform := "file", formatted_title := "甲" },
      { platform := "feishu", formatted_title := "乙" }]
    (some ["file", "feishu"])

/-- Collaborator oracles where every transform succeeds. -/
def okOracles : StageOracles :=
  { outlineOf := fun i => GenOutcome.ok { title := i.title },
    articleOf := fun o => GenOutcome.ok { title := o.title },
    formatOf := fun a p =>
      GenOutcome.ok { platform := p, formatted_title := a.title } }

/-- Collaborator oracles where outline generation raises exactly on the
inspiration titled `坏`. -/
def demoOracles : StageOracles :=
  { outlineOf := fun i =>
      if i.title == "坏" then GenOutcome.raised "boom"
      else GenOutcome.ok { title := i.title },
    articleOf := fun o => GenOutcome.ok { title := o.title },
    formatOf := fun a p =>
      GenOutcome.ok { platform := p, formatted_title := a.title } }

/-- Collaborator oracles where every outline attempt raises. -/
def failOracles : StageOracles :=
  { outlineOf := fun _ => GenOutcome.raised "boom",
    articleOf := fun o => GenOutcome.ok { title := o.title },
    formatOf := fun a p =>
      GenOutcome.ok { platform := p, formatted_title := a.title } }

/-- Collaborator oracles where every write (article) attempt raises. -/
def writerFailOracles : StageOracles :=
  { outlineOf := fun i => GenOutcome.ok { title := i.title },
    articleOf := fun _ => GenOutcome.raised "boom",
    formatOf := fun a p =>
      GenOutcome.ok { platform := p, formatted_title := a.title } }

/-- Collaborator oracles where every format attempt raises. -/
def formatterFailOracles : StageOracles :=
  { outlineOf := fun i => GenOutcome.ok { title := i.title },
    articleOf := fun o => GenOutcome.ok { title := o.title },
    formatOf := fun _ _ => GenOutcome.raised "boom" }

/-- Observer: the outline stage of a run, applied to the truncated batch
exactly as `run_pipeline` does. -/
def outlineStageOf (orc : StageOracles) (cfg : PipelineConfig)
    (insp : List Inspiration) : List Outline × StageCounters × List String :=
  generateOutlines cfg.outline_enabled orc
    (truncateBatch cfg.max_articles_per_run insp)

/-- Observer: the writer stage of a run, fed the surviving outlines. -/
def writerStageOf (orc : StageOracles) (cfg : PipelineConfig)
    (insp : List Inspiration) : List Article × StageCounters × List String :=
  writeContents cfg.writer_enabled orc (outlineStageOf orc cfg insp).1

/-- Observer: the format stage of a run, fed the surviving articles. -/
def formatterStageOf (orc : StageOracles) (cfg : PipelineConfig)
    (insp : List Inspiration) :
    List FormattedContent × StageCounters × List String :=
  formatContents cfg.formatter_enabled orc cfg.default_format_platforms
    (writerStageOf orc cfg insp).1

/-! ## Theorems -/

/-- C3: appending a 101st entry to a 100-entry history retains exactly
100 entries, evicting the oldest entry and keeping the new entry last;
and `_save_history` never persists more than 100 entries. -/
theorem history_cap_append (h : List HistoryEntry) (e : HistoryEntry)
    (hlen : h.length = 100) :
    addToHistory h e = h.drop 1 ++ [e] ∧ (addToHistory h e).length = 100 ∧
      ∀ h2 : List HistoryEntry, (saveHistory h2).length ≤ 100 := by
  have hdrop : addToHistory h e = h.drop 1 ++ [e] := by
    unfold addToHistory saveHistory
    rw [List.length_append, hlen]
    norm_num
    cases h with
    | nil => simp at hlen
    | cons a t => simp
  refine ⟨hdrop, ?_, ?_⟩
  · rw [hdrop]
    simp [hlen]
  · intro h2
    unfold saveHistory
    split
    · simp only [List.length_drop]
      omega
    · omega

/-- Witness for C3 at a concrete 100-entry history. -/
theorem history_cap_append_witness :
    (List.replicate 100 ({ timestamp := "t0" } : HistoryEntry)).length = 100 ∧
      (addToHistory (List.replicate 100 { timestamp := "t0" })
            { timestamp := "t1" } =
          (List.replicate 100 ({ timestamp := "t0" } : HistoryEntry)).drop 1 ++
            [{ timestamp := "t1" }] ∧
        (addToHistory (List.replicate 100 { timestamp := "t0" })
            ({ timestamp := "t1" } : HistoryEntry)).length = 100 ∧
        ∀ h2 : List HistoryEntry, (saveHistory h2).length ≤ 100) :=
  ⟨by simp, history_cap_append _ _ (by simp)⟩

/-- C8: configuration loading is a total function; a missing file leaves
the built-in defaults unchanged and a malformed file (load raised) keeps
the defaults, for both the pipeline config and the publisher registry. -/
theorem config_load_defaults :
    loadPipelineConfig none = pipelineDefaultConfig ∧
      (∀ msg : String,
        loadPipelineConfig (some (Except.error msg)) = pipelineDefaultConfig) ∧
      (∀ configs : Registry, publisherLoadConfig configs none = configs) ∧
      ∀ (configs : Registry) (msg : String),
        publisherLoadConfig configs (some (Except.error msg)) = configs :=
  ⟨rfl, fun _ => rfl, fun _ => rfl, fun _ _ => rfl⟩

/-- C10: omitting the platform list dispatches to exactly the enabled
platforms in registry order, while an explicit list is used as passed. -/
theorem default_platform_resolution (eff : Effects) (configs : Registry)
    (history : List HistoryEntry) (today now : String) (dur : Nat)
    (contents : List FormattedContent) (ps : List String) :
    resolvePlatforms configs none =
        (configs.filter fun pc => pc.2.enabled).map Prod.fst ∧
      resolvePlatforms configs (some ps) = ps ∧
      publishToPlatforms eff configs history today now dur contents none =
        publishToPlatforms eff configs history today now dur contents
          (some ((configs.filter fun pc => pc.2.enabled).map Prod.fst)) ∧
      (publishToPlatforms eff configs history today now dur contents
          (some ps)).1.total_platforms = ps.length :=
  ⟨rfl, rfl, rfl, rfl⟩

/-- C1: evaluation of the publisher at the claim's scenario. With
`rate_limit = 2` for feishu and a history holding exactly the two
entries `_add_to_history` appended for two successful feishu publishes
earlier the same day, `_check_rate_limit` still returns `True` (those
entries carry no `platform` / `success` keys, only `platform_results`),
so the third dispatch succeeds instead of reporting the rate-limit
failure the claim requires. -/
theorem rate_limit_ignores_own_history :
    c1Run1.1.success_count = 1 ∧
      c1Run2.1.success_count = 1 ∧
      c1Run2.2 =
        [c1SeededEntry "2026-10-12T08:00:00",
          c1SeededEntry "2026-10-12T09:00:00"] ∧
      (c1SeededEntry "2026-10-12T08:00:00").platform = none ∧
      (c1SeededEntry "2026-10-12T08:00:00").success = none ∧
      strStartsWith (c1SeededEntry "2026-10-12T08:00:00").timestamp
          "2026-10-12" = true ∧
      lookupTally (c1SeededEntry "2026-10-12T08:00:00").platform_results
          "feishu" = some { success := 1 } ∧
      checkRateLimit rateLimitScenarioConfigs c1Run2.2 "2026-10-12" "feishu" =
        true ∧
      c1Run3.1.success_count = 1 ∧
      c1Run3.1.failure_count = 0 := by
  decide

/-- C7 counterexample: dispatching one content to the disabled `wechat`
platform of the default registry does increase `failure_count` (to 1)
and the per-platform failure tally, contradicting the claim that a
disabled platform is skipped without counting as a failure. -/
theorem disabled_platform_counted_as_failure :
    c7Run.1.failure_count = 1 ∧
      lookupTally c7Run.1.platform_results "wechat" = some { failure := 1 } ∧
      c7Run.1.details.map (fun d => d.platform_results) =
        [[("wechat",
            { success := false, platform := "wechat",
              error := some "平台未启用" })]] := by
  decide

/-- Helper: the inner platform loop adds one success or one failure per
requested platform. -/
theorem publishLoop_counts (eff : Effects) (configs : Registry)
    (history : List HistoryEntry) (today : String) (c : FormattedContent)
    (ps : List String) :
    ∀ (totals : BatchTotals) (acc : List (String × PublishResult)),
      (publishLoop eff configs history today c ps totals acc).1.success_count =
          totals.success_count +
            ps.countP
              (fun p => (publishSingle eff configs history today c p).success) ∧
        (publishLoop eff configs history today c ps totals
              acc).1.failure_count =
          totals.failure_count +
            ps.countP
              (fun p => !(publishSingle eff configs history today c p).success) := by
  induction ps with
  | nil => intro totals acc; simp [publishLoop]
  | cons p rest ih =>
      intro totals acc
      simp only [publishLoop]
      constructor
      · rw [(ih _ _).1]
        by_cases hs : (publishSingle eff configs history today c p).success <;>
          simp [hs, List.countP_cons] <;> omega
      · rw [(ih _ _).2]
        by_cases hs : (publishSingle eff configs history today c p).success <;>
          simp [hs, List.countP_cons] <;> omega

/-- Helper: the outer content loop accumulates the per-content counts. -/
theorem contentsLoop_counts (eff : Effects) (configs : Registry)
    (history : List HistoryEntry) (today : String) (platforms : List String)
    (cs : List FormattedContent) :
    ∀ (idx : Nat) (totals : BatchTotals) (details : List ContentDetail),
      (contentsLoop eff configs history today platforms cs idx totals
            details).1.success_count =
          totals.success_count +
            (cs.map fun c =>
                platforms.countP fun p =>
                  (publishSingle eff configs history today c p).success).sum ∧
        (contentsLoop eff configs history today platforms cs idx totals
              details).1.failure_count =
          totals.failure_count +
            (cs.map fun c =>
                platforms.countP fun p =>
                  !(publishSingle eff configs history today c p).success).sum := by
  induction cs with
  | nil => intro idx totals details; simp [contentsLoop]
  | cons c rest ih =>
      intro idx totals details
      simp only [contentsLoop]
      constructor
      · rw [(ih _ _ _).1,
          (publishLoop_counts eff configs history today c platforms totals []).1]
        simp only [List.map_cons, List.sum_cons]
        omega
      · rw [(ih _ _ _).2,
          (publishLoop_counts eff configs history today c platforms totals []).2]
        simp only [List.map_cons, List.sum_cons]
        omega

/-- Helper: one tally bump adds exactly one attempt to the bumped
platform and leaves the others unchanged. -/
theorem tallyTotal_bump (t : List (String × PlatformTally)) (p q : String)
    (ok : Bool) :
    tallyTotal (bumpTally t p ok) q =
      tallyTotal t q + if q = p then 1 else 0 := by
  induction t with
  | nil =>
      by_cases h : q = p
      · subst h; cases ok <;> simp [bumpTally, tallyTotal, lookupTally]
      · have h2 : ¬(p = q) := fun hh => h hh.symm
        cases ok <;> simp [bumpTally, tallyTotal, lookupTally, h, h2]
  | cons hd tl ih =>
      obtain ⟨k, s⟩ := hd
      by_cases hkp : k = p
      · subst hkp
        by_cases hqk : q = k
        · subst hqk
          cases ok <;> simp [bumpTally, tallyTotal, lookupTally] <;> omega
        · have h2 : ¬(k = q) := fun hh => hqk hh.symm
          cases ok <;> simp [bumpTally, tallyTotal, lookupTally, h2, hqk]
      · have hkp2 : (k == p) = false := by simp [hkp]
        by_cases hqk : k = q
        · subst hqk
          have hqp : ¬(k = p) := hkp
          simp [bumpTally, tallyTotal, lookupTally, hkp2, hqp]
        · simp only [bumpTally, hkp2, Bool.false_eq_true, if_false]
          have hkq : (k == q) = false := by simp [hqk]
          simp only [tallyTotal, lookupTally, hkq, Bool.false_eq_true, if_false]
          exact ih

/-- Helper: the platform loop bumps each platform once per occurrence. -/
theorem publishLoop_tally (eff : Effects) (configs : Registry)
    (history : List HistoryEntry) (today : String) (c : FormattedContent)
    (ps : List String) :
    ∀ (totals : BatchTotals) (acc : List (String × PublishResult)) (q : String),
      tallyTotal
          (publishLoop eff configs history today c ps totals
              acc).1.platform_results q =
        tallyTotal totals.platform_results q + ps.count q := by
  induction ps with
  | nil => intro totals acc q; simp [publishLoop]
  | cons p rest ih =>
      intro totals acc q
      simp only [publishLoop]
      rw [ih, tallyTotal_bump, List.count_cons]
      by_cases h : q = p
      · simp [h]
        omega
      · simp [h]
        exact fun hh => h hh.symm

/-- Helper: the content loop bumps each platform once per content per
occurrence. -/
theorem contentsLoop_tally (eff : Effects) (configs : Registry)
    (history : List HistoryEntry) (today : String) (platforms : List String)
    (cs : List FormattedContent) :
    ∀ (idx : Nat) (totals : BatchTotals) (details : List ContentDetail)
      (q : String),
      tallyTotal
          (contentsLoop eff configs history today platforms cs idx totals
              details).1.platform_results q =
        tallyTotal totals.platform_results q + cs.length * platforms.count q := by
  induction cs with
  | nil => intro idx totals details q; simp [contentsLoop]
  | cons c rest ih =>
      intro idx totals details q
      simp only [contentsLoop]
      rw [ih, publishLoop_tally]
      simp only [List.length_cons]
      rw [Nat.succ_mul]
      omega

/-- Helper: detail records carry consecutive content indices. -/
theorem contentsLoop_indices (eff : Effects) (configs : Registry)
    (history : List HistoryEntry) (today : String) (platforms : List String)
    (cs : List FormattedContent) :
    ∀ (idx : Nat) (totals : BatchTotals) (details : List ContentDetail),
      (contentsLoop eff configs history today platforms cs idx totals
            details).2.map (fun d => d.content_index) =
        details.map (fun d => d.content_index) ++ List.range' idx cs.length := by
  induction cs with
  | nil => intro idx totals details; simp [contentsLoop]
  | cons c rest ih =>
      intro idx totals details
      simp only [contentsLoop]
      rw [ih]
      simp [List.range'_succ]

/-- Helper: one detail record per content. -/
theorem contentsLoop_details_length (eff : Effects) (configs : Registry)
    (history : List HistoryEntry) (today : String) (platforms : List String)
    (cs : List FormattedContent) (idx : Nat) (totals : BatchTotals)
    (details : List ContentDetail) :
    (contentsLoop eff configs history today platforms cs idx totals
          details).2.length = details.length + cs.length := by
  have h := congrArg List.length
    (contentsLoop_indices eff configs history today platforms cs idx totals
      details)
  simpa using h

/-- Helper: writing a fresh key appends it. -/
theorem setResult_append (acc : List (String × PublishResult)) (p : String)
    (r : PublishResult) (h : p ∉ acc.map Prod.fst) :
    setResult acc p r = acc ++ [(p, r)] := by
  induction acc with
  | nil => rfl
  | cons hd tl ih =>
      simp only [List.map_cons, List.mem_cons] at h
      push_neg at h
      have hne : (hd.1 == p) = false := by
        simp
        exact fun hh => h.1 hh.symm
      simp only [setResult, hne, Bool.false_eq_true, if_false, List.cons_append]
      rw [ih h.2]

/-- Helper: for a duplicate-free platform list the per-content result map
holds exactly the requested platforms in order. -/
theorem publishLoop_keys (eff : Effects) (configs : Registry)
    (history : List HistoryEntry) (today : String) (c : FormattedContent)
    (ps : List String) :
    ∀ (totals : BatchTotals) (acc : List (String × PublishResult)),
      (acc.map Prod.fst ++ ps).Nodup →
        (publishLoop eff configs history today c ps totals acc).2.map
            Prod.fst =
          acc.map Prod.fst ++ ps := by
  induction ps with
  | nil => intro totals acc _; simp [publishLoop]
  | cons p rest ih =>
      intro totals acc h
      simp only [publishLoop]
      have hp : p ∉ acc.map Prod.fst := by
        intro hmem
        rcases List.nodup_append.mp h with ⟨_, _, hdisj⟩
        exact hdisj hmem (List.mem_cons_self p rest)
      rw [setResult_append _ _ _ hp]
      rw [ih]
      · simp
      · simpa [List.append_assoc] using h

/-- Helper: every produced detail record keys its results by the
requested platform list. -/
theorem contentsLoop_keys (eff : Effects) (configs : Registry)
    (history : List HistoryEntry) (today : String) (platforms : List String)
    (hnd : platforms.Nodup) (cs : List FormattedContent) :
    ∀ (idx : Nat) (totals : BatchTotals) (details : List ContentDetail)
      (d : ContentDetail),
      d ∈ (contentsLoop eff configs history today platforms cs idx totals
            details).2 →
        d ∈ details ∨ d.platform_results.map Prod.fst = platforms := by
  induction cs with
  | nil =>
      intro idx totals details d hd
      exact Or.inl (by simpa [contentsLoop] using hd)
  | cons c rest ih =>
      intro idx totals details d hd
      simp only [contentsLoop] at hd
      rcases ih _ _ _ _ hd with hmem | hk
      · rcases List.mem_append.mp hmem with h1 | h2
        · exact Or.inl h1
        · right
          have hd2 := List.mem_singleton.mp h2
          rw [hd2]
          have := publishLoop_keys eff configs history today c platforms totals
            [] (by simpa using hnd)
          simpa using this
      · exact Or.inr hk

/-- Helper: a predicate and its negation count every element once. -/
theorem countP_add_countP_not (l : List String) (f : String → Bool) :
    l.countP f + l.countP (fun x => !f x) = l.length := by
  induction l with
  | nil => simp
  | cons a t ih =>
      by_cases h : f a <;> simp [List.countP_cons, h] <;> omega

/-- Helper: summing two pointwise-complementary counts gives
length times the bound. -/
theorem sum_map_pair (cs : List FormattedContent)
    (g1 g2 : FormattedContent → Nat) (m : Nat) (h : ∀ c, g1 c + g2 c = m) :
    (cs.map g1).sum + (cs.map g2).sum = cs.length * m := by
  induction cs with
  | nil => simp
  | cons c rest ih =>
      simp only [List.map_cons, List.sum_cons, List.length_cons]
      rw [Nat.succ_mul]
      have hc := h c
      omega

/-- C9 (amended with a duplicate-free platform list): a dispatch over
`n` contents and `m` requested platforms reports
`success_count + failure_count = n * m`, a per-platform
success+failure tally of `n` for each requested platform, and exactly
`n` detail records indexed `0..n-1`, each holding one result per
requested platform. -/
theorem batch_report_invariants (eff : Effects) (configs : Registry)
    (history : List HistoryEntry) (today now : String) (dur : Nat)
    (contents : List FormattedContent) (platforms : List String)
    (hnd : platforms.Nodup) :
    (publishToPlatforms eff configs history today now dur contents
            (some platforms)).1.success_count +
          (publishToPlatforms eff configs history today now dur contents
              (some platforms)).1.failure_count =
        contents.length * platforms.length ∧
      (∀ p ∈ platforms,
        tallyTotal
            (publishToPlatforms eff configs history today now dur contents
                (some platforms)).1.platform_results p = contents.length) ∧
      (publishToPlatforms eff configs history today now dur contents
            (some platforms)).1.details.length = contents.length ∧
      (publishToPlatforms eff configs history today now dur contents
            (some platforms)).1.details.map (fun d => d.content_index) =
        List.range contents.length ∧
      ∀ d ∈ (publishToPlatforms eff configs history today now dur contents
            (some platforms)).1.details,
        d.platform_results.map Prod.fst = platforms := by
  simp only [publishToPlatforms, resolvePlatforms]
  refine ⟨?_, ?_, ?_, ?_, ?_⟩
  · rw [(contentsLoop_counts eff configs history today platforms contents 0 {}
        []).1,
      (contentsLoop_counts eff configs history today platforms contents 0 {}
        []).2]
    have hs := sum_map_pair contents
      (fun c => platforms.countP fun p =>
        (publishSingle eff configs history today c p).success)
      (fun c => platforms.countP fun p =>
        !(publishSingle eff configs history today c p).success)
      platforms.length
      (fun c => countP_add_countP_not platforms _)
    simp only [BatchTotals.success_count, BatchTotals.failure_count] at *
    omega
  · intro p hp
    rw [contentsLoop_tally]
    simp [tallyTotal, lookupTally, List.count_eq_one_of_mem hnd hp]
  · rw [contentsLoop_details_length]
    simp
  · rw [contentsLoop_indices]
    simp [List.range_eq_range']
  · intro d hd
    rcases contentsLoop_keys eff configs history today platforms hnd contents
        0 {} [] d hd with h | h
    · simp at h
    · exact h

/-- Helper: a map that is constantly one sums to the length. -/
theorem sum_map_const_one (cs : List FormattedContent)
    (g : FormattedContent → Nat) (h : ∀ c, g c = 1) :
    (cs.map g).sum = cs.length := by
  induction cs with
  | nil => simp
  | cons c rest ih =>
      simp only [List.map_cons, List.sum_cons, List.length_cons, h c, ih]
      omega

/-- C7 (amended): a dispatch to a platform whose descriptor is disabled
(or unknown) is not routed to any publish method and returns the
non-exceptional `平台未启用` failure result; contrary to the original
claim this failure does count: with only that platform requested,
`success_count` is 0 and `failure_count` equals the content count. -/
theorem disabled_platform_skip (eff : Effects) (configs : Registry)
    (history : List HistoryEntry) (today : String) (c : FormattedContent)
    (p : String) (hdis : platformEnabled configs p = false) :
    publishSingle eff configs history today c p =
        { success := false, platform := p, error := some "平台未启用" } ∧
      ∀ (now : String) (dur : Nat) (contents : List FormattedContent),
        (publishToPlatforms eff configs history today now dur contents
            (some [p])).1.success_count = 0 ∧
        (publishToPlatforms eff configs history today now dur contents
            (some [p])).1.failure_count = contents.length := by
  have hps : ∀ c2 : FormattedContent,
      publishSingle eff configs history today c2 p =
        { success := false, platform := p, error := some "平台未启用" } := by
    intro c2
    simp [publishSingle, hdis]
  refine ⟨hps c, ?_⟩
  intro now dur contents
  constructor
  · simp only [publishToPlatforms, resolvePlatforms]
    rw [(contentsLoop_counts eff configs history today [p] contents 0 {} []).1]
    have hz : ∀ c2 : FormattedContent,
        ([p].countP fun q =>
          (publishSingle eff configs history today c2 q).success) = 0 := by
      intro c2
      simp [List.countP_cons, hps c2]
    have : (contents.map fun c2 =>
        [p].countP fun q =>
          (publishSingle eff configs history today c2 q).success).sum = 0 := by
      apply List.sum_eq_zero
      intro x hx
      rcases List.mem_map.mp hx with ⟨c2, _, rfl⟩
      exact hz c2
    rw [this]
  · simp only [publishToPlatforms, resolvePlatforms]
    rw [(contentsLoop_counts eff configs history today [p] contents 0 {} []).2]
    have ho : ∀ c2 : FormattedContent,
        ([p].countP fun q =>
          !(publishSingle eff configs history today c2 q).success) = 1 := by
      intro c2
      simp [List.countP_cons, hps c2]
    rw [sum_map_const_one _ _ ho]
    simp

/-- C9 counterexample: with the platform list `["file", "file"]` (length
2) and one content, the claimed per-platform law success + failure = n
fails: the tally for `file` records 2 attempts while n = 1, and the
detail record holds a single `file` entry rather than one result per
requested-list position. -/
theorem batch_report_dup_platforms :
    (["file", "file"] : List String).length = 2 ∧
      ([{ platform := "file", formatted_title := "示例" }] :
          List FormattedContent).length = 1 ∧
      tallyTotal c9DupRun.1.platform_results "file" = 2 ∧
      c9DupRun.1.details.map (fun d => d.platform_results.map Prod.fst) =
        [["file"]] := by
  decide

/-- Witness for C9 on two contents and the platforms
`["file", "feishu"]`. -/
theorem batch_report_invariants_witness :
    (["file", "feishu"] : List String).Nodup ∧
      (c9NodupRun.1.success_count + c9NodupRun.1.failure_count = 4 ∧
        (∀ p ∈ ["file", "feishu"],
          tallyTotal c9NodupRun.1.platform_results p = 2) ∧
        c9NodupRun.1.details.length = 2 ∧
        c9NodupRun.1.details.map (fun d => d.content_index) = List.range 2 ∧
        ∀ d ∈ c9NodupRun.1.details,
          d.platform_results.map Prod.fst = ["file", "feishu"]) :=
  ⟨by decide,
    batch_report_invariants noFailureEffects defaultPlatformConfigs []
      "2026-10-12" "2026-10-12T08:00:00" 0
      [{ platform := "file", formatted_title := "甲" },
        { platform := "feishu", formatted_title := "乙" }]
      ["file", "feishu"] (by decide)⟩

/-- Witness for C7 at the disabled default `wechat` platform. -/
theorem disabled_platform_skip_witness :
    platformEnabled defaultPlatformConfigs "wechat" = false ∧
      (publishSingle noFailureEffects defaultPlatformConfigs [] "2026-10-12"
            { platform := "wechat" } "wechat" =
          { success := false, platform := "wechat",
            error := some "平台未启用" } ∧
        ∀ (now : String) (dur : Nat) (contents : List FormattedContent),
          (publishToPlatforms noFailureEffects defaultPlatformConfigs []
              "2026-10-12" now dur contents
              (some ["wechat"])).1.success_count = 0 ∧
          (publishToPlatforms noFailureEffects defaultPlatformConfigs []
              "2026-10-12" now dur contents
              (some ["wechat"])).1.failure_count = contents.length) :=
  ⟨by decide,
    disabled_platform_skip noFailureEffects defaultPlatformConfigs []
      "2026-10-12" { platform := "wechat" } "wechat" (by decide)⟩

/-- C2: the pipeline-level dispatch groups contents by their own
`platform` field; every content of a dispatched group carries exactly
the platform the group is dispatched under, so a B-tagged content never
enters the dispatch for platform A. -/
theorem dispatch_group_platform_match (pls : List String)
    (cs : List FormattedContent) (p : String)
    (group : List FormattedContent) (c : FormattedContent)
    (hg : (p, group) ∈ dispatchGroups pls cs) (hc : c ∈ group) :
    group = (cs.filter fun x => x.platform == p) ∧ c.platform = p := by
  unfold dispatchGroups at hg
  rw [List.mem_filterMap] at hg
  obtain ⟨q, _, hf⟩ := hg
  by_cases he : (cs.filter fun x => x.platform == q).isEmpty
  · simp [he] at hf
  · simp only [he, Bool.false_eq_true, if_false, Option.some.injEq,
      Prod.mk.injEq] at hf
    obtain ⟨hqp, hgrp⟩ := hf
    subst hqp
    refine ⟨hgrp.symm, ?_⟩
    rw [← hgrp] at hc
    have := List.mem_filter.mp hc
    simpa using this.2

/-- Witness for C2: a batch tagged for platforms A and B dispatched to
{A} only contains the A-tagged content. -/
theorem dispatch_group_platform_match_witness :
    ([{ platform := "A" }] =
        ([{ platform := "A" }, { platform := "B" }] :
            List FormattedContent).filter fun x => x.platform == "A") ∧
      ({ platform := "A" } : FormattedContent).platform = "A" :=
  dispatch_group_platform_match ["A"]
    [{ platform := "A" }, { platform := "B" }] "A" [{ platform := "A" }]
    { platform := "A" } (by decide) (by decide)

/-- Helper: the outline loop increments `processed` once per item,
whatever the outcome. -/
theorem outlineFold_processed (orc : StageOracles) (l : List Inspiration) :
    ∀ st : List Outline × StageCounters × List String,
      (l.foldl (outlineStep orc) st).2.1.processed =
        st.2.1.processed + l.length := by
  induction l with
  | nil => intro st; simp
  | cons a t ih =>
      intro st
      rw [List.foldl_cons, ih]
      cases h : orc.outlineOf a <;> simp [outlineStep, h] <;> omega

/-- Helper: an enabled outline stage processes every item of its batch. -/
theorem generateOutlines_processed (orc : StageOracles)
    (l : List Inspiration) :
    (generateOutlines true orc l).2.1.processed = l.length := by
  simp only [generateOutlines, Bool.not_true, Bool.false_eq_true, if_false]
  rw [outlineFold_processed]
  simp

/-- Helper: the outline counters of a run are those of the outline
stage, in every branch. -/
theorem runPipelineStages_outline (orc : StageOracles) (eff : Effects)
    (configs : Registry) (history : List HistoryEntry) (today now : String)
    (dur : Nat) (cfg : PipelineConfig) (insp : List Inspiration) :
    (runPipelineStages orc eff configs history today now dur cfg
          insp).1.outline =
      (generateOutlines cfg.outline_enabled orc insp).2.1 := by
  simp only [runPipelineStages]
  split
  · rfl
  · split
    · rfl
    · split
      · rfl
      · split
        · rfl
        · rfl

/-- Helper: on a non-empty batch `run_pipeline` is the staged run on the
truncated batch, with `total_inspirations` recorded pre-truncation. -/
theorem runPipeline_nonempty (orc : StageOracles) (eff : Effects)
    (configs : Registry) (history : List HistoryEntry) (today now : String)
    (dur : Nat) (cfg : PipelineConfig) (insp : List Inspiration)
    (hne : insp.isEmpty = false) :
    runPipeline orc eff configs history today now dur cfg insp =
      ({ (runPipelineStages orc eff configs history today now dur cfg
            (truncateBatch cfg.max_articles_per_run insp)).1 with
          total_inspirations := insp.length },
        (runPipelineStages orc eff configs history today now dur cfg
            (truncateBatch cfg.max_articles_per_run insp)).2) := by
  simp only [runPipeline, hne, Bool.false_eq_true, if_false]

/-- C4: when the batch exceeds `max_articles_per_run` (and the outline
stage is enabled), the outline stage processes exactly the cap, and the
dropped excess contributes nothing to the run: two oversized batches
agreeing on their first `max_articles_per_run` items produce identical
error lists. -/
theorem batch_cap_truncates (orc : StageOracles) (eff : Effects)
    (configs : Registry) (history : List HistoryEntry) (today now : String)
    (dur : Nat) (cfg : PipelineConfig) (insp insp2 : List Inspiration)
    (hlen : insp.length > cfg.max_articles_per_run)
    (hlen2 : insp2.length > cfg.max_articles_per_run)
    (hagree : insp.take cfg.max_articles_per_run =
      insp2.take cfg.max_articles_per_run)
    (hen : cfg.outline_enabled = true) :
    (runPipeline orc eff configs history today now dur cfg
          insp).1.outline.processed = cfg.max_articles_per_run ∧
      (runPipeline orc eff configs history today now dur cfg insp).1.errors =
        (runPipeline orc eff configs history today now dur cfg insp2).1.errors := by
  have hne : insp.isEmpty = false := by
    cases insp
    · simp at hlen
    · rfl
  have hne2 : insp2.isEmpty = false := by
    cases insp2
    · simp at hlen2
    · rfl
  have ht : truncateBatch cfg.max_articles_per_run insp =
      insp.take cfg.max_articles_per_run := by
    unfold truncateBatch
    rw [if_pos hlen]
  have ht2 : truncateBatch cfg.max_articles_per_run insp2 =
      insp2.take cfg.max_articles_per_run := by
    unfold truncateBatch
    rw [if_pos hlen2]
  constructor
  · rw [runPipeline_nonempty orc eff configs history today now dur cfg insp hne]
    simp only []
    rw [runPipelineStages_outline, ht, hen, generateOutlines_processed,
      List.length_take]
    omega
  · rw [runPipeline_nonempty orc eff configs history today now dur cfg insp hne,
      runPipeline_nonempty orc eff configs history today now dur cfg insp2 hne2]
    simp only []
    rw [ht, ht2, hagree]

/-- C6: any stage whose entire output is empty is fatal for the run.
If the outline stage's output is empty the run appends the single error
`大纲生成失败` and the writer, formatter and publisher never run; if
the writer stage's output is empty the run appends `内容创作失败` and
the formatter and publisher never run; if the format stage's output is
empty the run appends `排版优化失败` and the publisher never runs. In
every case nothing is published and the publish history is untouched. -/
theorem stage_exhausted_terminates (orc : StageOracles) (eff : Effects)
    (configs : Registry) (history : List HistoryEntry) (today now : String)
    (dur : Nat) (cfg : PipelineConfig) (insp : List Inspiration)
    (hne : insp.isEmpty = false) :
    ((outlineStageOf orc cfg insp).1 = [] →
      (runPipeline orc eff configs history today now dur cfg insp).1.errors =
          (outlineStageOf orc cfg insp).2.2 ++ ["大纲生成失败"] ∧
        (runPipeline orc eff configs history today now dur cfg
            insp).1.writer = {} ∧
        (runPipeline orc eff configs history today now dur cfg
            insp).1.formatter = {} ∧
        (runPipeline orc eff configs history today now dur cfg
            insp).1.publisher = {} ∧
        (runPipeline orc eff configs history today now dur cfg
            insp).1.total_published = 0 ∧
        (runPipeline orc eff configs history today now dur cfg insp).2 =
          history) ∧
      ((outlineStageOf orc cfg insp).1 ≠ [] →
        (writerStageOf orc cfg insp).1 = [] →
        (runPipeline orc eff configs history today now dur cfg
              insp).1.errors =
            (outlineStageOf orc cfg insp).2.2 ++
              (writerStageOf orc cfg insp).2.2 ++ ["内容创作失败"] ∧
          (runPipeline orc eff configs history today now dur cfg
              insp).1.formatter = {} ∧
          (runPipeline orc eff configs history today now dur cfg
              insp).1.publisher = {} ∧
          (runPipeline orc eff configs history today now dur cfg
              insp).1.total_published = 0 ∧
          (runPipeline orc eff configs history today now dur cfg insp).2 =
            history) ∧
      ((outlineStageOf orc cfg insp).1 ≠ [] →
        (writerStageOf orc cfg insp).1 ≠ [] →
        (formatterStageOf orc cfg insp).1 = [] →
        (runPipeline orc eff configs history today now dur cfg
              insp).1.errors =
            (outlineStageOf orc cfg insp).2.2 ++
              (writerStageOf orc cfg insp).2.2 ++
              (formatterStageOf orc cfg insp).2.2 ++ ["排版优化失败"] ∧
          (runPipeline orc eff configs history today now dur cfg
              insp).1.publisher = {} ∧
          (runPipeline orc eff configs history today now dur cfg
              insp).1.total_published = 0 ∧
          (runPipeline orc eff configs history today now dur cfg insp).2 =
            history) := by
  refine ⟨?_, ?_, ?_⟩
  · intro hout
    simp only [outlineStageOf] at hout ⊢
    rw [runPipeline_nonempty orc eff configs history today now dur cfg insp
      hne]
    simp [runPipelineStages, hout]
  · intro h1 h2
    simp only [outlineStageOf, writerStageOf] at h1 h2 ⊢
    have hogE : (generateOutlines cfg.outline_enabled orc
        (truncateBatch cfg.max_articles_per_run insp)).1.isEmpty = false := by
      cases hcase : (generateOutlines cfg.outline_enabled orc
          (truncateBatch cfg.max_articles_per_run insp)).1
      · exact absurd hcase h1
      · rfl
    rw [runPipeline_nonempty orc eff configs history today now dur cfg insp
      hne]
    simp [runPipelineStages, hogE, h2]
  · intro h1 h2 h3
    simp only [outlineStageOf, writerStageOf, formatterStageOf] at h1 h2 h3 ⊢
    have hogE : (generateOutlines cfg.outline_enabled orc
        (truncateBatch cfg.max_articles_per_run insp)).1.isEmpty = false := by
      cases hcase : (generateOutlines cfg.outline_enabled orc
          (truncateBatch cfg.max_articles_per_run insp)).1
      · exact absurd hcase h1
      · rfl
    have hwgE : (writeContents cfg.writer_enabled orc
        (generateOutlines cfg.outline_enabled orc
          (truncateBatch cfg.max_articles_per_run insp)).1).1.isEmpty =
          false := by
      cases hcase : (writeContents cfg.writer_enabled orc
          (generateOutlines cfg.outline_enabled orc
            (truncateBatch cfg.max_articles_per_run insp)).1).1
      · exact absurd hcase h2
      · rfl
    rw [runPipeline_nonempty orc eff configs history today now dur cfg insp
      hne]
    simp [runPipelineStages, hogE, hwgE, h3]

/-- Helper: a writer stage whose oracle always succeeds keeps every
item and reports no errors. -/
theorem writerFold_all_ok (orc : StageOracles)
    (hwok : ∀ o : Outline, ∃ a, orc.articleOf o = GenOutcome.ok a)
    (l : List Outline) :
    ∀ st : List Article × StageCounters × List String,
      ((l.foldl (writerStep orc) st).1.length = st.1.length + l.length) ∧
        ((l.foldl (writerStep orc) st).2.1.processed =
          st.2.1.processed + l.length) ∧
        ((l.foldl (writerStep orc) st).2.1.success =
          st.2.1.success + l.length) ∧
        ((l.foldl (writerStep orc) st).2.1.failed = st.2.1.failed) ∧
        ((l.foldl (writerStep orc) st).2.2 = st.2.2) := by
  induction l with
  | nil => intro st; simp
  | cons o t ih =>
      intro st
      obtain ⟨a, ha⟩ := hwok o
      rw [List.foldl_cons]
      have h2 := ih (writerStep orc st o)
      simp only [writerStep, ha] at h2 ⊢
      simp only [List.length_append, List.length_cons, List.length_nil] at h2 ⊢
      obtain ⟨e1, e2, e3, e4, e5⟩ := h2
      refine ⟨by omega, by omega, by omega, by omega, e5⟩

/-- Helper: the per-article platform loop of the format stage, all-ok
case. -/
theorem formatFoldPlat_all_ok (orc : StageOracles) (article : Article)
    (hfok : ∀ p : String, ∃ f, orc.formatOf article p = GenOutcome.ok f)
    (ps : List String) :
    ∀ st : List FormattedContent × StageCounters × List String,
      ((ps.foldl (formatStep orc article) st).1.length =
          st.1.length + ps.length) ∧
        ((ps.foldl (formatStep orc article) st).2.1.processed =
          st.2.1.processed + ps.length) ∧
        ((ps.foldl (formatStep orc article) st).2.1.success =
          st.2.1.success + ps.length) ∧
        ((ps.foldl (formatStep orc article) st).2.1.failed =
          st.2.1.failed) ∧
        ((ps.foldl (formatStep orc article) st).2.2 = st.2.2) := by
  induction ps with
  | nil => intro st; simp
  | cons p t ih =>
      intro st
      obtain ⟨f, hf⟩ := hfok p
      rw [List.foldl_cons]
      have h2 := ih (formatStep orc article st p)
      simp only [formatStep, hf] at h2 ⊢
      simp only [List.length_append, List.length_cons, List.length_nil] at h2 ⊢
      obtain ⟨e1, e2, e3, e4, e5⟩ := h2
      refine ⟨by omega, by omega, by omega, by omega, e5⟩

/-- Helper: an all-ok format stage produces one content per
(article, platform) pair and no errors. -/
theorem formatFold_all_ok (orc : StageOracles) (platforms : List String)
    (hfok : ∀ (art : Article) (p : String),
      ∃ f, orc.formatOf art p = GenOutcome.ok f)
    (arts : List Article) :
    ∀ st : List FormattedContent × StageCounters × List String,
      ((arts.foldl
            (fun st article => platforms.foldl (formatStep orc article) st)
            st).1.length =
          st.1.length + arts.length * platforms.length) ∧
        ((arts.foldl
            (fun st article => platforms.foldl (formatStep orc article) st)
            st).2.1.processed =
          st.2.1.processed + arts.length * platforms.length) ∧
        ((arts.foldl
            (fun st article => platforms.foldl (formatStep orc article) st)
            st).2.1.success =
          st.2.1.success + arts.length * platforms.length) ∧
        ((arts.foldl
            (fun st article => platforms.foldl (formatStep orc article) st)
            st).2.1.failed = st.2.1.failed) ∧
        ((arts.foldl
            (fun st article => platforms.foldl (formatStep orc article) st)
            st).2.2 = st.2.2) := by
  induction arts with
  | nil => intro st; simp
  | cons art rest ih =>
      intro st
      rw [List.foldl_cons]
      obtain ⟨i1, i2, i3, i4, i5⟩ :=
        formatFoldPlat_all_ok orc art (fun p => hfok art p) platforms st
      obtain ⟨e1, e2, e3, e4, e5⟩ :=
        ih (platforms.foldl (formatStep orc art) st)
      have hm : (rest.length + 1) * platforms.length =
          rest.length * platforms.length + platforms.length :=
        Nat.succ_mul _ _
      simp only [List.length_cons]
      exact ⟨by omega, by omega, by omega, by omega, e5.trans i5⟩

/-- C5: in a batch of three inspirations where only the second outline
attempt raises, the outline stage yields 2 surviving outlines with
counters (processed 3, success 2, failed 1), the run records exactly
the one outline error, and the run continues: the writer stage
processes both survivors. -/
theorem fail_soft_second_item (orc : StageOracles) (eff : Effects)
    (configs : Registry) (history : List HistoryEntry) (today now : String)
    (dur : Nat) (cfg : PipelineConfig) (a b c : Inspiration)
    (oa oc2 : Outline) (msg : String)
    (ha : orc.outlineOf a = GenOutcome.ok oa)
    (hb : orc.outlineOf b = GenOutcome.raised msg)
    (hc : orc.outlineOf c = GenOutcome.ok oc2)
    (hmax : 3 ≤ cfg.max_articles_per_run)
    (hen : cfg.outline_enabled = true)
    (hwen : cfg.writer_enabled = true)
    (hfen : cfg.formatter_enabled = true)
    (hwok : ∀ o : Outline, ∃ art, orc.articleOf o = GenOutcome.ok art)
    (hfok : ∀ (art : Article) (p : String),
      ∃ f, orc.formatOf art p = GenOutcome.ok f)
    (hplat : cfg.default_format_platforms ≠ []) :
    (generateOutlines cfg.outline_enabled orc [a, b, c]).1.length = 2 ∧
      (runPipeline orc eff configs history today now dur cfg
            [a, b, c]).1.outline =
        { processed := 3, success := 2, failed := 1 } ∧
      (runPipeline orc eff configs history today now dur cfg
            [a, b, c]).1.errors = ["大纲生成异常: " ++ msg] ∧
      (runPipeline orc eff configs history today now dur cfg
            [a, b, c]).1.writer.processed = 2 := by
  have hog : generateOutlines cfg.outline_enabled orc [a, b, c] =
      ([oa, oc2], { processed := 3, success := 2, failed := 1 },
        ["大纲生成异常: " ++ msg]) := by
    rw [hen]
    simp [generateOutlines, outlineStep, ha, hb, hc]
  obtain ⟨a1, ea1⟩ := hwok oa
  obtain ⟨a2, ea2⟩ := hwok oc2
  have hwg : writeContents cfg.writer_enabled orc [oa, oc2] =
      ([a1, a2], { processed := 2, success := 2, failed := 0 }, []) := by
    rw [hwen]
    simp [writeContents, writerStep, ea1, ea2]
  have hne : ([a, b, c] : List Inspiration).isEmpty = false := rfl
  have ht : truncateBatch cfg.max_articles_per_run [a, b, c] = [a, b, c] := by
    unfold truncateBatch
    rw [if_neg]
    simp only [List.length_cons, List.length_nil]
    omega
  obtain ⟨f1, f2, f3, f4, f5⟩ :=
    formatFold_all_ok orc cfg.default_format_platforms hfok [a1, a2]
      ([], {}, [])
  have hfgL : (formatContents cfg.formatter_enabled orc
      cfg.default_format_platforms [a1, a2]).1.length =
      2 * cfg.default_format_platforms.length := by
    rw [hfen]
    simp only [formatContents, Bool.not_true, Bool.false_eq_true, if_false]
    rw [f1]
    simp
  have hfgE : (formatContents cfg.formatter_enabled orc
      cfg.default_format_platforms [a1, a2]).2.2 = [] := by
    rw [hfen]
    simp only [formatContents, Bool.not_true, Bool.false_eq_true, if_false]
    rw [f5]
  have hfne : (formatContents cfg.formatter_enabled orc
      cfg.default_format_platforms [a1, a2]).1.isEmpty = false := by
    have hp : 0 < cfg.default_format_platforms.length :=
      List.length_pos.mpr hplat
    cases hfc : (formatContents cfg.formatter_enabled orc
        cfg.default_format_platforms [a1, a2]).1 with
    | nil =>
        rw [hfc] at hfgL
        have h0 : (0 : Nat) = 2 * cfg.default_format_platforms.length := by
          simpa using hfgL
        omega
    | cons x xs => rfl
  refine ⟨by rw [hog]; rfl, ?_, ?_, ?_⟩ <;>
    · rw [runPipeline_nonempty orc eff configs history today now dur cfg
        [a, b, c] hne, ht]
      simp only [runPipelineStages, hog, hwg, hfne, List.isEmpty_cons,
        Bool.false_eq_true, if_false]
      by_cases h4 : cfg.auto_publish <;> simp [h4, hfgE]

/-- Witness for C4: a batch of four inspirations under the default cap
of three; a sibling batch differing only in the dropped fourth item
yields the same errors. -/
theorem batch_cap_truncates_witness :
    ([{ title := "一" }, { title := "二" }, { title := "三" },
          { title := "四" }] : List Inspiration).length >
        ({} : PipelineConfig).max_articles_per_run ∧
      ((runPipeline okOracles noFailureEffects defaultPlatformConfigs []
              "2026-10-12" "2026-10-12T08:00:00" 0 {}
              [{ title := "一" }, { title := "二" }, { title := "三" },
                { title := "四" }]).1.outline.processed =
          ({} : PipelineConfig).max_articles_per_run ∧
        (runPipeline okOracles noFailureEffects defaultPlatformConfigs []
              "2026-10-12" "2026-10-12T08:00:00" 0 {}
              [{ title := "一" }, { title := "二" }, { title := "三" },
                { title := "四" }]).1.errors =
          (runPipeline okOracles noFailureEffects defaultPlatformConfigs []
              "2026-10-12" "2026-10-12T08:00:00" 0 {}
              [{ title := "一" }, { title := "二" }, { title := "三" },
                { title := "五" }]).1.errors) :=
  ⟨by decide,
    batch_cap_truncates okOracles noFailureEffects defaultPlatformConfigs []
      "2026-10-12" "2026-10-12T08:00:00" 0 {}
      [{ title := "一" }, { title := "二" }, { title := "三" },
        { title := "四" }]
      [{ title := "一" }, { title := "二" }, { title := "三" },
        { title := "五" }]
      (by decide) (by decide) (by decide) rfl⟩

/-- Witness for C5: three inspirations where the second raises, under
the default configuration and all-ok downstream oracles. -/
theorem fail_soft_second_item_witness :
    (generateOutlines ({} : PipelineConfig).outline_enabled demoOracles
          [{ title := "一" }, { title := "坏" }, { title := "三" }]).1.length =
        2 ∧
      (runPipeline demoOracles noFailureEffects defaultPlatformConfigs []
            "2026-10-12" "2026-10-12T08:00:00" 0 {}
            [{ title := "一" }, { title := "坏" },
              { title := "三" }]).1.outline =
        { processed := 3, success := 2, failed := 1 } ∧
      (runPipeline demoOracles noFailureEffects defaultPlatformConfigs []
            "2026-10-12" "2026-10-12T08:00:00" 0 {}
            [{ title := "一" }, { title := "坏" },
              { title := "三" }]).1.errors =
        ["大纲生成异常: " ++ "boom"] ∧
      (runPipeline demoOracles noFailureEffects defaultPlatformConfigs []
            "2026-10-12" "2026-10-12T08:00:00" 0 {}
            [{ title := "一" }, { title := "坏" },
              { title := "三" }]).1.writer.processed = 2 :=
  fail_soft_second_item demoOracles noFailureEffects defaultPlatformConfigs
    [] "2026-10-12" "2026-10-12T08:00:00" 0 {} { title := "一" }
    { title := "坏" } { title := "三" } { title := "一" } { title := "三" }
    "boom" (by decide) (by decide) (by decide) (by decide) rfl rfl rfl
    (fun o => ⟨{ title := o.title }, rfl⟩)
    (fun art p => ⟨{ platform := p, formatted_title := art.title }, rfl⟩)
    (by decide)

/-- Witness for C6: three concrete runs, each exhausting one stage —
all outline attempts raise, all write attempts raise, all format
attempts raise — hitting the three fatal-empty early returns. -/
theorem stage_exhausted_terminates_witness :
    ((runPipeline failOracles noFailureEffects defaultPlatformConfigs []
            "2026-10-12" "2026-10-12T08:00:00" 0 {}
            [{ title := "一" }]).1.errors =
          (outlineStageOf failOracles {} [{ title := "一" }]).2.2 ++
            ["大纲生成失败"] ∧
        (runPipeline failOracles noFailureEffects defaultPlatformConfigs []
            "2026-10-12" "2026-10-12T08:00:00" 0 {}
            [{ title := "一" }]).1.writer = {} ∧
        (runPipeline failOracles noFailureEffects defaultPlatformConfigs []
            "2026-10-12" "2026-10-12T08:00:00" 0 {}
            [{ title := "一" }]).1.formatter = {} ∧
        (runPipeline failOracles noFailureEffects defaultPlatformConfigs []
            "2026-10-12" "2026-10-12T08:00:00" 0 {}
            [{ title := "一" }]).1.publisher = {} ∧
        (runPipeline failOracles noFailureEffects defaultPlatformConfigs []
            "2026-10-12" "2026-10-12T08:00:00" 0 {}
            [{ title := "一" }]).1.total_published = 0 ∧
        (runPipeline failOracles noFailureEffects defaultPlatformConfigs []
            "2026-10-12" "2026-10-12T08:00:00" 0 {}
            [{ title := "一" }]).2 = []) ∧
      ((runPipeline writerFailOracles noFailureEffects
              defaultPlatformConfigs [] "2026-10-12" "2026-10-12T08:00:00" 0
              {} [{ title := "一" }]).1.errors =
          (outlineStageOf writerFailOracles {} [{ title := "一" }]).2.2 ++
            (writerStageOf writerFailOracles {} [{ title := "一" }]).2.2 ++
            ["内容创作失败"] ∧
        (runPipeline writerFailOracles noFailureEffects
            defaultPlatformConfigs [] "2026-10-12" "2026-10-12T08:00:00" 0
            {} [{ title := "一" }]).1.formatter = {} ∧
        (runPipeline writerFailOracles noFailureEffects
            defaultPlatformConfigs [] "2026-10-12" "2026-10-12T08:00:00" 0
            {} [{ title := "一" }]).1.publisher = {} ∧
        (runPipeline writerFailOracles noFailureEffects
            defaultPlatformConfigs [] "2026-10-12" "2026-10-12T08:00:00" 0
            {} [{ title := "一" }]).1.total_published = 0 ∧
        (runPipeline writerFailOracles noFailureEffects
            defaultPlatformConfigs [] "2026-10-12" "2026-10-12T08:00:00" 0
            {} [{ title := "一" }]).2 = []) ∧
      ((runPipeline formatterFailOracles noFailureEffects
              defaultPlatformConfigs [] "2026-10-12" "2026-10-12T08:00:00" 0
              {} [{ title := "一" }]).1.errors =
          (outlineStageOf formatterFailOracles {} [{ title := "一" }]).2.2 ++
            (writerStageOf formatterFailOracles {} [{ title := "一" }]).2.2 ++
            (formatterStageOf formatterFailOracles {}
                [{ title := "一" }]).2.2 ++
            ["排版优化失败"] ∧
        (runPipeline formatterFailOracles noFailureEffects
            defaultPlatformConfigs [] "2026-10-12" "2026-10-12T08:00:00" 0
            {} [{ title := "一" }]).1.publisher = {} ∧
        (runPipeline formatterFailOracles noFailureEffects
            defaultPlatformConfigs [] "2026-10-12" "2026-10-12T08:00:00" 0
            {} [{ title := "一" }]).1.total_published = 0 ∧
        (runPipeline formatterFailOracles noFailureEffects
            defaultPlatformConfigs [] "2026-10-12" "2026-10-12T08:00:00" 0
            {} [{ title := "一" }]).2 = []) :=
  ⟨(stage_exhausted_terminates failOracles noFailureEffects
        defaultPlatformConfigs [] "2026-10-12" "2026-10-12T08:00:00" 0 {}
        [{ title := "一" }] rfl).1 (by decide),
    (stage_exhausted_terminates writerFailOracles noFailureEffects
        defaultPlatformConfigs [] "2026-10-12" "2026-10-12T08:00:00" 0 {}
        [{ title := "一" }] rfl).2.1 (by decide) (by decide),
    (stage_exhausted_terminates formatterFailOracles noFailureEffects
        defaultPlatformConfigs [] "2026-10-12" "2026-10-12T08:00:00" 0 {}
        [{ title := "一" }] rfl).2.2 (by decide) (by decide) (by decide)⟩
